import Mathlib

/-!
Shallow embedding of `src/static/script.js` (browser chat client of
medi-chat-bot).  The DOM chat box is a list of nodes, the module-level
mutable variables (`isProcessing`, `thinkingMessage`) and the relevant
widget attributes are fields of an explicit `ClientState`, and the
callback-chained `fetch` round trip is split into a synchronous start
(`sendMessageStart`, up to the request dispatch) and a settle step
(`settleResponse`) parameterised by the outcome of the request.
Style-level effects (focus, scrolling, pixel heights) are not modelled;
no claim mentions them.
-/

/-! ### JavaScript values (payload fields)

A server payload field is a JSON/JS value.  Arrays are modelled one
level deep (lists of scalars): the only array the client ever reads is
`data.symptoms`, a flat array of strings. -/

/-- Scalar JS value (array element). -/
inductive JsAtom where
  | astr (s : String)
  | anum (n : Int)
  | abool (b : Bool)
  | anull
  | aundefined
deriving DecidableEq, Repr

/-- JS value of a payload field; `vundefined` is the value of a missing
property. -/
inductive JsVal where
  | vstr (s : String)
  | vnum (n : Int)
  | vbool (b : Bool)
  | vnull
  | vundefined
  | varr (xs : List JsAtom)
deriving DecidableEq, Repr

/-- `String(atom)` — ECMAScript ToString on a scalar. -/
def JsAtom.toStr : JsAtom → String
  | .astr s => s
  | .anum n => toString n
  | .abool b => if b then "true" else "false"
  | .anull => "null"
  | .aundefined => "undefined"

/-- One element of `Array.prototype.join`: `null`/`undefined` elements
become the empty string, others go through ToString. -/
def JsAtom.joinElem : JsAtom → String
  | .anull => ""
  | .aundefined => ""
  | a => a.toStr

/-- `String(v)`, as performed by a template-literal interpolation
(`${data.disease}`): `undefined`/`null` print as words, an array joins
its elements with commas. -/
def jsToString : JsVal → String
  | .vstr s => s
  | .vnum n => toString n
  | .vbool b => if b then "true" else "false"
  | .vnull => "null"
  | .vundefined => "undefined"
  | .varr xs => String.intercalate "," (xs.map JsAtom.joinElem)

/-- Conversion applied by the `textContent` setter (nullable DOMString:
`null` and `undefined` clear the node; other values go through
ToString). -/
def domSetString : JsVal → String
  | .vnull => ""
  | .vundefined => ""
  | v => jsToString v

/-! ### `String.prototype.trim` -/

/-- The characters `String.prototype.trim` strips: ECMAScript
WhiteSpace (tab, VT, FF, space, NBSP, ZWNBSP, Unicode Zs) and
LineTerminator (LF, CR, LS, PS). -/
def jsWhitespaceChars : List Char :=
  ['\t', '\x0b', '\x0c', ' ', ' ', '﻿',
   ' ', ' ', ' ', ' ', ' ', ' ', ' ',
   ' ', ' ', ' ', ' ', ' ', ' ', ' ',
   '　', '\n', '\r', ' ', ' ']

/-- Whether `String.prototype.trim` strips `c`. -/
def isJsWhitespace (c : Char) : Bool := jsWhitespaceChars.contains c

/-- `s.trim()` — strip whitespace from both ends. -/
def jsTrim (s : String) : String :=
  String.mk (((s.data.dropWhile isJsWhitespace).reverse.dropWhile
      isJsWhitespace).reverse)

/-! ### The plain-text formatting pipeline (script.js lines 126-138)

`addMessage` assigns the text through `textContent` and reads back
`innerHTML` (escaping `&`, `<`, `>`), then applies the four global
regex substitutions. -/

/-- Serialisation of one text-node character when `innerHTML` is read
back after a `textContent` assignment. -/
def escapeChar (c : Char) : String :=
  if c = '&' then "&amp;"
  else if c = '<' then "&lt;"
  else if c = '>' then "&gt;"
  else String.singleton c

/-- Escape a character list (`tempDiv.textContent = text;
tempDiv.innerHTML`). -/
def escapeHtmlL : List Char → String
  | [] => ""
  | c :: cs => escapeChar c ++ escapeHtmlL cs

/-- The `safeText` of `addMessage`: text neutralised as plain content. -/
def escapeHtml (s : String) : String := escapeHtmlL s.data

/-- ECMAScript LineTerminator characters, which `.` in a regex does not
match and after which `^` matches in multiline mode. -/
def isLineTerminator (c : Char) : Bool :=
  c = '\n' || c = '\r' || c = ' ' || c = ' '

/-- Split a character list at the first occurrence of `delim`:
returns the part before the occurrence and the part after it. -/
def splitFirstDelim (delim : List Char) :
    List Char → Option (List Char × List Char)
  | [] => if delim.isEmpty then some ([], []) else none
  | c :: cs =>
    if delim.isPrefixOf (c :: cs) then some ([], (c :: cs).drop delim.length)
    else
      match splitFirstDelim delim cs with
      | some (pre, post) => some (c :: pre, post)
      | none => none

/-- One global pass of a JS regex `D(.*?)D` (for a literal delimiter
`D`), replacing each leftmost-shortest match with
`openT ++ content ++ closeT`.  The lazy group cannot cross a line
terminator.  Fuel bounds the recursion; every step consumes at least
one input character, so `length + 1` fuel always suffices. -/
def replaceLazyPair (delim : List Char) (openT closeT : String) :
    Nat → List Char → String
  | 0, cs => String.mk cs
  | _ + 1, [] => ""
  | fuel + 1, c :: cs =>
    if delim.isPrefixOf (c :: cs) then
      match splitFirstDelim delim ((c :: cs).drop delim.length) with
      | some (content, rest) =>
        if content.any isLineTerminator then
          String.singleton c ++ replaceLazyPair delim openT closeT fuel cs
        else
          openT ++ String.mk content ++ closeT ++
            replaceLazyPair delim openT closeT fuel rest
      | none => String.singleton c ++ replaceLazyPair delim openT closeT fuel cs
    else String.singleton c ++ replaceLazyPair delim openT closeT fuel cs

/-- `.replace(/^- /gm, '• ')`: a `- ` at a line start becomes a bullet
glyph and a space.  The Bool argument records whether the scan is at a
line start. -/
def bulletsAux : Bool → List Char → List Char
  | _, [] => []
  | true, '-' :: ' ' :: cs => '•' :: ' ' :: bulletsAux false cs
  | _, c :: cs => c :: bulletsAux (isLineTerminator c) cs

/-- `.replace(/\n/g, '<br>')`. -/
def brNewlines : List Char → List Char
  | [] => []
  | '\n' :: cs => '<' :: 'b' :: 'r' :: '>' :: brNewlines cs
  | c :: cs => c :: brNewlines cs

/-- The full `formattedText` pipeline of `addMessage`: escape, then
strong, em, bullets, line breaks, in source order. -/
def formatMessage (text : String) : String :=
  let safe := escapeHtml text
  let s1 := replaceLazyPair ['*', '*'] "<strong>" "</strong>"
    (safe.data.length + 1) safe.data
  let s2 := replaceLazyPair ['*'] "<em>" "</em>" (s1.data.length + 1) s1.data
  let s3 := String.mk (bulletsAux true s2.data)
  String.mk (brNewlines s3.data)

/-! ### Chat state -/

/-- The `type` argument of `addMessage` (`'user' | 'bot' | 'medical'`). -/
inductive Sender where
  | user
  | bot
  | medical
deriving DecidableEq, Repr

/-- The four `innerHTML` strings `addMedicalResponse` builds below the
header and category tag. -/
structure MedicalTurn where
  symptomsHTML : String
  conditionHTML : String
  disclaimerHTML : String
  footerHTML : String
deriving DecidableEq, Repr

/-- What a chat-box child node is: a plain message bubble (content =
the formatted innerHTML below any header), a structured medical bubble,
or the thinking indicator. -/
inductive NodeKind where
  | msg (ty : Sender) (contentHTML : String)
  | medicalNode (t : MedicalTurn)
  | thinking
deriving DecidableEq, Repr

/-- A chat-box child.  The `id` stands for DOM node identity, so that
`thinkingMessage.remove()` can be modelled; ids are allocated from
`ClientState.nextId`. -/
structure ChatNode where
  id : Nat
  kind : NodeKind
deriving DecidableEq, Repr

/-- The mutable client state: the chat box children, the suggestion
bubbles (elsewhere in the document), the input widget, the two
module-level variables, the id allocator, and the `console.error` log. -/
structure ClientState where
  chatBox : List ChatNode
  suggestionsPresent : Bool
  inputValue : String
  sendBtnDisabled : Bool
  isProcessing : Bool
  thinkingMessage : Option Nat
  nextId : Nat
  consoleErrors : List String
deriving DecidableEq, Repr

/-- Whether a node is the thinking indicator. -/
def ChatNode.isThinking (n : ChatNode) : Bool :=
  decide (n.kind = NodeKind.thinking)

/-- Number of thinking indicators among the chat-box children. -/
def countThinking (l : List ChatNode) : Nat := l.countP ChatNode.isThinking

/-- The parsed JSON body of a successful response; a missing property
reads as `undefined`. -/
structure ResponseData where
  mode : JsVal := .vundefined
  response : JsVal := .vundefined
  symptoms : JsVal := .vundefined
  disease : JsVal := .vundefined

/-- `data.mode === 'medical'`. -/
def isMedicalMode : JsVal → Bool
  | .vstr s => s == "medical"
  | _ => false

/-- A thrown JS exception (the only one the modelled code can raise is
a `TypeError`, from calling `.map` or `.replace` on a wrong-typed
value). -/
inductive JsError where
  | typeError
deriving DecidableEq, Repr

/-! ### `addMedicalResponse` (lines 155-226) -/

/-- `symptom.replace(/_/g, ' ')`. -/
def underscoresToSpaces (s : String) : String :=
  String.mk (s.data.map fun c => if c = '_' then ' ' else c)

/-- One mapped symptom: `` `<span class="symptom-tag">...</span>` ``.
Throws a `TypeError` when the array element is not a string (no
`.replace` method). -/
def renderSymptomSpan : JsAtom → Except JsError String
  | .astr s =>
    .ok ("<span class=\"symptom-tag\">" ++ underscoresToSpaces s ++ "</span>")
  | _ => .error .typeError

/-- Twenty spaces of template-literal indentation. -/
def sp20 : String := "                    "

/-- Twenty-four spaces of template-literal indentation. -/
def sp24 : String := "                        "

/-- Sixteen spaces of template-literal indentation. -/
def sp16 : String := "                "

/-- The symptoms-section template around the joined chips. -/
def symptomsSectionHTML (chipsJoined : String) : String :=
  "\n" ++ sp20 ++ "<strong>Reported symptoms:</strong>\n" ++
    sp20 ++ "<div class=\"symptom-list\">\n" ++
    sp24 ++ chipsJoined ++ "\n" ++
    sp20 ++ "</div>\n" ++ sp16

/-- The condition-section template around `${data.disease}`. -/
def conditionSectionHTML (diseaseStr : String) : String :=
  "\n" ++ sp20 ++ "<strong>Possible condition:</strong> " ++ diseaseStr ++
    "\n" ++ sp16

/-- The fixed disclaimer block. -/
def disclaimerHTMLText : String :=
  "\n" ++ sp20 ++ "<strong>Important:</strong> This is not a medical diagnosis. \n" ++
    sp20 ++ "Consult a healthcare professional for accurate assessment.\n" ++ sp16

/-- The footer template around `${data.symptoms.length}`. -/
def footerSectionHTML (count : Nat) : String :=
  "\n" ++ sp20 ++ "<span>AI-Powered Analysis</span>\n" ++
    sp20 ++ "<div class=\"response-source\">\n" ++
    sp24 ++ "<i class=\"fas fa-database\"></i> Medical Knowledge Base\n" ++
    sp20 ++ "</div>\n" ++
    sp20 ++ "<div class=\"chat-stats\">\n" ++
    sp24 ++ "<span class=\"stat-item\"><i class=\"fas fa-symptom\"></i> " ++
    (toString count ++ " symptoms") ++ "</span>\n" ++
    sp20 ++ "</div>\n" ++ sp16

/-- `data.symptoms.map(symptom => ...)`: render each chip in order,
propagating the `TypeError` thrown at the first non-string element. -/
def renderChips : List JsAtom → Except JsError (List String)
  | [] => .ok []
  | a :: as => do
    let c ← renderSymptomSpan a
    let cs ← renderChips as
    .ok (c :: cs)

/-- Build the four sections of a medical bubble.  `data.symptoms.map`
throws a `TypeError` when `symptoms` is not an array; the throw happens
while the symptoms template evaluates, before anything is appended to
the chat box. -/
def renderMedical (d : ResponseData) : Except JsError MedicalTurn :=
  match d.symptoms with
  | .varr xs => do
    let chips ← renderChips xs
    .ok
      { symptomsHTML := symptomsSectionHTML (String.join chips)
        conditionHTML := conditionSectionHTML (jsToString d.disease)
        disclaimerHTML := disclaimerHTMLText
        footerHTML := footerSectionHTML xs.length }
  | _ => .error .typeError

/-! ### Chat-box operations -/

/-- `addMessage(text, type)`: build the bubble (its content is the
formatted text, except that the `'medical'` branch adds none), append
it, then remove the suggestion bubbles when they exist and the chat box
now has more than one child. -/
def addMessage (text : String) (ty : Sender) (s : ClientState) : ClientState :=
  let contentHTML := match ty with
    | .medical => ""
    | _ => formatMessage text
  let chatBox := s.chatBox ++ [⟨s.nextId, .msg ty contentHTML⟩]
  { s with
    chatBox := chatBox
    nextId := s.nextId + 1
    suggestionsPresent :=
      if s.suggestionsPresent && decide (chatBox.length > 1) then false
      else s.suggestionsPresent }

/-- `addMedicalResponse(data)`: build the structured bubble and append
it.  No suggestion-bubble removal happens on this path; on a thrown
`TypeError` the chat box is untouched. -/
def addMedicalResponse (d : ResponseData) (s : ClientState) :
    Except JsError ClientState :=
  (renderMedical d).map fun t =>
    { s with
      chatBox := s.chatBox ++ [⟨s.nextId, .medicalNode t⟩]
      nextId := s.nextId + 1 }

/-- `showThinkingIndicator()`: remove any tracked indicator, then
append a fresh one and track it. -/
def showThinkingIndicator (s : ClientState) : ClientState :=
  let s1 := match s.thinkingMessage with
    | some tid =>
      { s with
        chatBox := s.chatBox.filter fun n => !(n.id == tid)
        thinkingMessage := none }
    | none => s
  { s1 with
    chatBox := s1.chatBox ++ [⟨s1.nextId, .thinking⟩]
    thinkingMessage := some s1.nextId
    nextId := s1.nextId + 1 }

/-- `hideThinkingIndicator()`: remove the tracked indicator, if any. -/
def hideThinkingIndicator (s : ClientState) : ClientState :=
  match s.thinkingMessage with
  | some tid =>
    { s with
      chatBox := s.chatBox.filter fun n => !(n.id == tid)
      thinkingMessage := none }
  | none => s

/-! ### Input controller and send flow -/

/-- The fixed apology text of the `.catch` handler. -/
def apologyText : String :=
  "❌ Oops! I couldn't process your request. Please check your internet connection and try again."

/-- The `input` event handler (lines 9-19): the send button is disabled
exactly when the trimmed input is empty (height adjustment not
modelled). -/
def inputHandler (s : ClientState) : ClientState :=
  { s with sendBtnDisabled := (jsTrim s.inputValue).length == 0 }

/-- The synchronous part of `sendMessage()` (lines 30-53), up to the
`fetch` dispatch.  Returns the new state and `some message` when a
request was dispatched with that body message, `none` when the guard
made the call a no-op. -/
def sendMessageStart (s : ClientState) : ClientState × Option String :=
  let message := jsTrim s.inputValue
  if message.isEmpty || s.isProcessing then (s, none)
  else
    let s1 := { s with isProcessing := true, sendBtnDisabled := true }
    let s2 := addMessage message .user s1
    let s3 := { s2 with inputValue := "" }
    (showThinkingIndicator s3, some message)

/-- `useSuggestion(text)` (lines 292-299): prefill the input, enable
the send button, then call `sendMessage`. -/
def useSuggestion (text : String) (s : ClientState) :
    ClientState × Option String :=
  sendMessageStart { s with inputValue := text, sendBtnDisabled := false }

/-- How the dispatched request settles, seen from the promise chain:
rejected fetch, response with a non-ok status, ok status whose body
fails JSON parsing, or ok status with a parsed body. -/
inductive Outcome where
  | netError
  | httpError
  | okBadJson
  | okJson (d : ResponseData)

/-- The `.catch` handler (lines 79-91): hide the indicator, append the
fixed apology as a bot bubble, log the error, clear the in-flight flag,
re-enable the send button. -/
def catchPath (errText : String) (s : ClientState) : ClientState :=
  let s1 := hideThinkingIndicator s
  let s2 := addMessage apologyText .bot s1
  { s2 with
    consoleErrors := s2.consoleErrors ++ [errText]
    isProcessing := false
    sendBtnDisabled := false }

/-- Logged cause of a rejected `fetch`. -/
def netErrorLog : String := "TypeError: Failed to fetch"

/-- Logged cause of the explicit throw on a non-ok status (line 56). -/
def httpErrorLog : String := "Error: Network response was not ok"

/-- Logged cause of a `response.json()` rejection. -/
def badJsonLog : String := "SyntaxError: JSON parse error"

/-- Logged cause of the `TypeError` thrown inside
`addMedicalResponse`. -/
def medicalRenderLog : String := "TypeError: data.symptoms.map is not a function"

/-- The promise-chain continuation of `sendMessage` (lines 54-91).  A
rejected fetch, a non-ok status, and a JSON parse failure all reach the
`.catch` handler.  On a parsed body the indicator is hidden first; a
`TypeError` thrown inside `addMedicalResponse` then also lands in the
`.catch` handler (whose own hide is a no-op). -/
def settleResponse (o : Outcome) (s : ClientState) : ClientState :=
  match o with
  | .netError => catchPath netErrorLog s
  | .httpError => catchPath httpErrorLog s
  | .okBadJson => catchPath badJsonLog s
  | .okJson d =>
    let s1 := hideThinkingIndicator s
    if isMedicalMode d.mode then
      match addMedicalResponse d s1 with
      | .ok s2 => { s2 with isProcessing := false, sendBtnDisabled := false }
      | .error _ => catchPath medicalRenderLog s1
    else
      let s2 := addMessage (domSetString d.response) .bot s1
      { s2 with isProcessing := false, sendBtnDisabled := false }

/-! ### The thinking-indicator invariant -/

/-- State invariant tying the tracked `thinkingMessage` reference to
the chat box: a child is the thinking indicator exactly when its
identity is the tracked one, and all allocated ids are below the
allocator.  It holds in the initial state and is preserved by every
operation that touches the indicator. -/
def ThinkInv (s : ClientState) : Prop :=
  (∀ n ∈ s.chatBox, (n.kind = NodeKind.thinking ↔ s.thinkingMessage = some n.id))
  ∧ (∀ n ∈ s.chatBox, n.id < s.nextId)

instance (s : ClientState) : Decidable (ThinkInv s) := by
  unfold ThinkInv
  infer_instance

/-! ### Concrete states and payloads used by witnesses -/

/-- Page state right after load: empty chat box, suggestion bubbles
shown, nothing in flight. -/
def initState : ClientState :=
  { chatBox := []
    suggestionsPresent := true
    inputValue := ""
    sendBtnDisabled := true
    isProcessing := false
    thinkingMessage := none
    nextId := 0
    consoleErrors := [] }

/-- A state with a request in flight: one user bubble, the thinking
indicator appended after it and tracked, flag set. -/
def inFlightState : ClientState :=
  { chatBox := [⟨0, .msg .user (formatMessage "hi")⟩, ⟨1, .thinking⟩]
    suggestionsPresent := true
    inputValue := "second try"
    sendBtnDisabled := true
    isProcessing := true
    thinkingMessage := some 1
    nextId := 2
    consoleErrors := [] }

/-- The spec's example medical payload. -/
def medExample : ResponseData :=
  { mode := .vstr "medical"
    response := .vundefined
    symptoms := .varr [.astr "chest_pain", .astr "fever"]
    disease := .vstr "Flu" }

/-- A medical payload with the `symptoms` property missing. -/
def medMissingSymptoms : ResponseData :=
  { mode := .vstr "medical"
    response := .vstr "n/a"
    symptoms := .vundefined
    disease := .vstr "Flu" }

/-- A medical payload whose `disease` carries markup characters. -/
def medMarkupDisease : ResponseData :=
  { mode := .vstr "medical"
    response := .vundefined
    symptoms := .varr [.astr "cough"]
    disease := .vstr "<b>x</b>" }

/-- The bot bubble the `.catch` handler appends, with identity `i`. -/
def botApologyNode (i : Nat) : ChatNode :=
  ⟨i, .msg .bot (formatMessage apologyText)⟩

/-- The chip span rendered for one symptom string. -/
def chipSpan (nm : String) : String :=
  "<span class=\"symptom-tag\">" ++ underscoresToSpaces nm ++ "</span>"

/-! ### Helper lemmas -/

theorem jsTrim_of_all_whitespace (s : String)
    (h : ∀ c ∈ s.data, isJsWhitespace c = true) : jsTrim s = "" := by
  unfold jsTrim
  rw [List.dropWhile_eq_nil_iff.mpr h]
  rfl

theorem isThinking_msg (i : Nat) (ty : Sender) (c : String) :
    ChatNode.isThinking ⟨i, .msg ty c⟩ = false := by
  simp [ChatNode.isThinking]

theorem isThinking_medical (i : Nat) (t : MedicalTurn) :
    ChatNode.isThinking ⟨i, .medicalNode t⟩ = false := by
  simp [ChatNode.isThinking]

theorem countThinking_filter_out (l : List ChatNode) :
    countThinking (l.filter fun n => !n.isThinking) = 0 := by
  refine List.countP_eq_zero.mpr ?_
  intro a ha
  have := (List.mem_filter.mp ha).2
  simp only [Bool.not_eq_true'] at this
  simp [ChatNode.isThinking] at this ⊢
  exact this

theorem hide_eq (s : ClientState) (h : ThinkInv s) :
    hideThinkingIndicator s =
      { s with
        chatBox := s.chatBox.filter fun n => !n.isThinking
        thinkingMessage := none } := by
  obtain ⟨h1, _⟩ := h
  unfold hideThinkingIndicator
  cases htm : s.thinkingMessage with
  | none =>
    have hfix : (s.chatBox.filter fun n => !n.isThinking) = s.chatBox := by
      refine List.filter_eq_self.mpr ?_
      intro n hn
      have hiff := h1 n hn
      rw [htm] at hiff
      simp [ChatNode.isThinking]
      intro hk
      exact Option.noConfusion (hiff.mp hk)
    simp only [htm, hfix]
    rw [← htm]
  | some tid =>
    have hfilter : (s.chatBox.filter fun n => !(n.id == tid)) =
        (s.chatBox.filter fun n => !n.isThinking) := by
      refine List.filter_congr ?_
      intro n hn
      have hiff := h1 n hn
      rw [htm] at hiff
      by_cases hk : n.kind = NodeKind.thinking
      · have hid : tid = n.id := Option.some.inj (hiff.mp hk)
        simp [ChatNode.isThinking, hk, hid]
      · have hid : ¬ n.id = tid := by
          intro he
          exact hk (hiff.mpr (by rw [he]))
        simp [ChatNode.isThinking, hk, hid]
    simp only [htm, hfilter]

theorem hide_nextId (s : ClientState) :
    (hideThinkingIndicator s).nextId = s.nextId := by
  unfold hideThinkingIndicator
  cases s.thinkingMessage <;> rfl

theorem show_eq (s : ClientState) :
    showThinkingIndicator s =
      { hideThinkingIndicator s with
        chatBox := (hideThinkingIndicator s).chatBox ++
          [⟨(hideThinkingIndicator s).nextId, .thinking⟩]
        thinkingMessage := some (hideThinkingIndicator s).nextId
        nextId := (hideThinkingIndicator s).nextId + 1 } := by
  unfold showThinkingIndicator hideThinkingIndicator
  cases s.thinkingMessage <;> rfl

theorem show_countThinking (s : ClientState) (h : ThinkInv s) :
    countThinking (showThinkingIndicator s).chatBox = 1 := by
  rw [show_eq, hide_eq s h]
  show countThinking ((s.chatBox.filter fun n => !n.isThinking) ++
    [⟨s.nextId, .thinking⟩]) = 1
  rw [countThinking, List.countP_append]
  have h0 := countThinking_filter_out s.chatBox
  rw [countThinking] at h0
  rw [h0]
  simp [ChatNode.isThinking]

theorem show_thinkInv (s : ClientState) (h : ThinkInv s) :
    ThinkInv (showThinkingIndicator s) := by
  obtain ⟨h1, h2⟩ := h
  rw [show_eq, hide_eq s ⟨h1, h2⟩]
  refine ⟨?_, ?_⟩
  · intro n hn
    show n.kind = NodeKind.thinking ↔ some s.nextId = some n.id
    have hn' : n ∈ (s.chatBox.filter fun n => !n.isThinking) ++
        [(⟨s.nextId, .thinking⟩ : ChatNode)] := hn
    rcases List.mem_append.mp hn' with hmem | hmem
    · have hm := List.mem_filter.mp hmem
      have hlt := h2 n hm.1
      have hnk : ¬ n.kind = NodeKind.thinking := by
        have hb := hm.2
        simp only [Bool.not_eq_true'] at hb
        simp [ChatNode.isThinking] at hb
        exact hb
      constructor
      · intro hk; exact absurd hk hnk
      · intro hsome
        have hid := Option.some.inj hsome
        exact False.elim (by omega)
    · have heq : n = ⟨s.nextId, .thinking⟩ := by simpa using hmem
      subst heq
      simp
  · intro n hn
    show n.id < s.nextId + 1
    have hn' : n ∈ (s.chatBox.filter fun n => !n.isThinking) ++
        [(⟨s.nextId, .thinking⟩ : ChatNode)] := hn
    rcases List.mem_append.mp hn' with hmem | hmem
    · have hlt := h2 n (List.mem_filter.mp hmem).1
      omega
    · have heq : n = ⟨s.nextId, .thinking⟩ := by simpa using hmem
      subst heq
      simp

theorem addMessage_isProcessing (text : String) (ty : Sender) (s : ClientState) :
    (addMessage text ty s).isProcessing = s.isProcessing := rfl

theorem show_isProcessing (s : ClientState) :
    (showThinkingIndicator s).isProcessing = s.isProcessing := by
  unfold showThinkingIndicator
  cases s.thinkingMessage <;> rfl

theorem catchPath_eq (e : String) (s : ClientState) (h : ThinkInv s) :
    catchPath e s =
      { s with
        chatBox := (s.chatBox.filter fun n => !n.isThinking) ++
          [botApologyNode s.nextId]
        suggestionsPresent :=
          if s.suggestionsPresent &&
              decide ((s.chatBox.filter fun n => !n.isThinking).length + 1 > 1)
            then false else s.suggestionsPresent
        thinkingMessage := none
        nextId := s.nextId + 1
        consoleErrors := s.consoleErrors ++ [e]
        isProcessing := false
        sendBtnDisabled := false } := by
  unfold catchPath
  rw [hide_eq s h]
  unfold addMessage botApologyNode
  simp [List.length_append]

theorem escapeChar_no_angle (c : Char) :
    '<' ∉ (escapeChar c).data ∧ '>' ∉ (escapeChar c).data := by
  unfold escapeChar
  split_ifs with h1 h2 h3
  · exact ⟨by decide, by decide⟩
  · exact ⟨by decide, by decide⟩
  · exact ⟨by decide, by decide⟩
  · constructor
    · intro hm
      simp [String.singleton] at hm
      exact h2 hm.symm
    · intro hm
      simp [String.singleton] at hm
      exact h3 hm.symm

theorem escapeHtmlL_no_angle (l : List Char) :
    '<' ∉ (escapeHtmlL l).data ∧ '>' ∉ (escapeHtmlL l).data := by
  induction l with
  | nil => exact ⟨by decide, by decide⟩
  | cons c cs ih =>
    have hc := escapeChar_no_angle c
    constructor
    · show '<' ∉ (escapeChar c ++ escapeHtmlL cs).data
      rw [String.data_append]
      intro hm
      rcases List.mem_append.mp hm with hm | hm
      · exact hc.1 hm
      · exact ih.1 hm
    · show '>' ∉ (escapeChar c ++ escapeHtmlL cs).data
      rw [String.data_append]
      intro hm
      rcases List.mem_append.mp hm with hm | hm
      · exact hc.2 hm
      · exact ih.2 hm

theorem renderChips_astr (names : List String) :
    renderChips (names.map JsAtom.astr) = .ok (names.map chipSpan) := by
  induction names with
  | nil => rfl
  | cons nm rest ih =>
    show renderChips (JsAtom.astr nm :: rest.map JsAtom.astr) = _
    unfold renderChips renderSymptomSpan
    rw [ih]
    rfl

/-! ### Claim theorems -/

/-- Claim C1: while a request is in flight the in-flight flag is true
and a second send attempt is a no-op — it appends no second user turn
and dispatches no second request (also when triggered through
`useSuggestion`) — and the flag is cleared exactly by the settling of
the response. -/
theorem claim_C1_inflight_send_noop :
    (∀ s : ClientState, s.isProcessing = true → sendMessageStart s = (s, none))
    ∧ (∀ s : ClientState, (sendMessageStart s).2.isSome = true →
        (sendMessageStart s).1.isProcessing = true)
    ∧ (∀ (t : String) (s : ClientState), s.isProcessing = true →
        (useSuggestion t s).1.chatBox = s.chatBox ∧ (useSuggestion t s).2 = none)
    ∧ (∀ (o : Outcome) (s : ClientState),
        (settleResponse o s).isProcessing = false) := by
  have hnoop : ∀ s : ClientState, s.isProcessing = true →
      sendMessageStart s = (s, none) := by
    intro s h
    simp [sendMessageStart, h]
  refine ⟨hnoop, ?_, ?_, ?_⟩
  · intro s hs
    by_cases hg : ((jsTrim s.inputValue).isEmpty || s.isProcessing) = true
    · simp [sendMessageStart, hg] at hs
    · simp only [Bool.not_eq_true] at hg
      simp only [sendMessageStart, hg, Bool.false_eq_true, if_false]
      rw [show_isProcessing]
      rfl
  · intro t s h
    have hres := hnoop { s with inputValue := t, sendBtnDisabled := false } h
    unfold useSuggestion
    rw [hres]
    exact ⟨rfl, rfl⟩
  · intro o s
    cases o with
    | netError => rfl
    | httpError => rfl
    | okBadJson => rfl
    | okJson d =>
      show (settleResponse (.okJson d) s).isProcessing = false
      unfold settleResponse
      by_cases hm : isMedicalMode d.mode = true
      · simp only [hm, if_true]
        cases hres : addMedicalResponse d (hideThinkingIndicator s) with
        | ok s2 => simp [hres]
        | error e => simp [hres, catchPath]
      · simp only [Bool.not_eq_true] at hm
        simp [hm]

/-- Witness for C1 at a concrete in-flight state. -/
theorem claim_C1_witness :
    sendMessageStart inFlightState = (inFlightState, none) :=
  claim_C1_inflight_send_noop.1 inFlightState rfl

/-- Claim C2: for an input consisting only of whitespace, the input
handler disables the send control and invoking the send operation is a
no-op — no user turn appended, input not cleared, no request
dispatched. -/
theorem claim_C2_whitespace_send_noop (input : String) (s : ClientState)
    (h : ∀ c ∈ input.data, isJsWhitespace c = true) :
    (inputHandler { s with inputValue := input }).sendBtnDisabled = true
    ∧ sendMessageStart { s with inputValue := input } =
        ({ s with inputValue := input }, none) := by
  have ht : jsTrim input = "" := jsTrim_of_all_whitespace input h
  constructor
  · show ((jsTrim input).length == 0) = true
    rw [ht]
    rfl
  · have hemp : ("" : String).isEmpty = true := rfl
    simp [sendMessageStart, ht, hemp]

/-- Witness for C2 at a concrete whitespace-only input. -/
theorem claim_C2_witness :
    (inputHandler { initState with inputValue := " \t\n " }).sendBtnDisabled = true
    ∧ sendMessageStart { initState with inputValue := " \t\n " } =
        ({ initState with inputValue := " \t\n " }, none) :=
  claim_C2_whitespace_send_noop " \t\n " initState (by decide)

/-- Claim C3: at most one thinking placeholder exists at any time —
`showThinkingIndicator` first evicts any live placeholder, so one and
even two successive invocations leave exactly one, and the tracking
invariant is preserved. -/
theorem claim_C3_single_thinking_placeholder (s : ClientState)
    (h : ThinkInv s) :
    countThinking (showThinkingIndicator s).chatBox = 1
    ∧ ThinkInv (showThinkingIndicator s)
    ∧ countThinking
        (showThinkingIndicator (showThinkingIndicator s)).chatBox = 1 :=
  ⟨show_countThinking s h, show_thinkInv s h,
    show_countThinking _ (show_thinkInv s h)⟩

/-- Witness for C3 at a concrete state already holding a placeholder. -/
theorem claim_C3_witness :
    countThinking (showThinkingIndicator inFlightState).chatBox = 1
    ∧ ThinkInv (showThinkingIndicator inFlightState)
    ∧ countThinking
        (showThinkingIndicator (showThinkingIndicator inFlightState)).chatBox
      = 1 :=
  claim_C3_single_thinking_placeholder inFlightState (by decide)

theorem countThinking_filter_concat (l : List ChatNode) (i : Nat) :
    countThinking ((l.filter fun n => !n.isThinking) ++ [botApologyNode i])
      = 0 := by
  rw [countThinking, List.countP_append]
  have h0 := countThinking_filter_out l
  rw [countThinking] at h0
  rw [h0]
  simp [botApologyNode, ChatNode.isThinking]

/-- Claim C4: on request failure — rejected fetch or non-ok HTTP
status — the thinking placeholder is removed, exactly one fixed apology
bot turn is appended (the same turn for both error kinds), the error is
logged, the in-flight flag is cleared and the send control re-enabled,
and a fresh send with non-blank input dispatches immediately. -/
theorem claim_C4_failure_apology_reset (s : ClientState) (h : ThinkInv s) :
    (settleResponse .netError s).chatBox =
        (s.chatBox.filter fun n => !n.isThinking) ++ [botApologyNode s.nextId]
    ∧ (settleResponse .httpError s).chatBox = (settleResponse .netError s).chatBox
    ∧ countThinking (settleResponse .netError s).chatBox = 0
    ∧ countThinking (settleResponse .httpError s).chatBox = 0
    ∧ (settleResponse .netError s).consoleErrors =
        s.consoleErrors ++ [netErrorLog]
    ∧ (settleResponse .httpError s).consoleErrors =
        s.consoleErrors ++ [httpErrorLog]
    ∧ (settleResponse .netError s).isProcessing = false
    ∧ (settleResponse .netError s).sendBtnDisabled = false
    ∧ (settleResponse .httpError s).isProcessing = false
    ∧ (settleResponse .httpError s).sendBtnDisabled = false
    ∧ (∀ t : String, jsTrim t ≠ "" →
        (sendMessageStart
          { settleResponse .netError s with inputValue := t }).2
        = some (jsTrim t)) := by
  have hnet : settleResponse .netError s = catchPath netErrorLog s := rfl
  have hhttp : settleResponse .httpError s = catchPath httpErrorLog s := rfl
  rw [hnet, hhttp, catchPath_eq netErrorLog s h, catchPath_eq httpErrorLog s h]
  refine ⟨rfl, rfl, ?_, ?_, rfl, rfl, rfl, rfl, rfl, rfl, ?_⟩
  · exact countThinking_filter_concat s.chatBox s.nextId
  · exact countThinking_filter_concat s.chatBox s.nextId
  · intro t ht
    have hfalse : (jsTrim t).isEmpty = false := by
      rw [Bool.eq_false_iff]
      intro hh
      exact ht ((String.isEmpty_iff _).mp hh)
    simp [sendMessageStart, hfalse]

/-- Witness for C4 at a concrete in-flight state. -/
theorem claim_C4_witness :
    (settleResponse .netError inFlightState).chatBox =
        (inFlightState.chatBox.filter fun n => !n.isThinking) ++
          [botApologyNode inFlightState.nextId]
    ∧ (settleResponse .httpError inFlightState).chatBox =
        (settleResponse .netError inFlightState).chatBox
    ∧ countThinking (settleResponse .netError inFlightState).chatBox = 0
    ∧ countThinking (settleResponse .httpError inFlightState).chatBox = 0
    ∧ (settleResponse .netError inFlightState).consoleErrors =
        inFlightState.consoleErrors ++ [netErrorLog]
    ∧ (settleResponse .httpError inFlightState).consoleErrors =
        inFlightState.consoleErrors ++ [httpErrorLog]
    ∧ (settleResponse .netError inFlightState).isProcessing = false
    ∧ (settleResponse .netError inFlightState).sendBtnDisabled = false
    ∧ (settleResponse .httpError inFlightState).isProcessing = false
    ∧ (settleResponse .httpError inFlightState).sendBtnDisabled = false
    ∧ (∀ t : String, jsTrim t ≠ "" →
        (sendMessageStart
          { settleResponse .netError inFlightState with inputValue := t }).2
        = some (jsTrim t)) :=
  claim_C4_failure_apology_reset inFlightState (by decide)

/-- Claim C10: an ok response whose body fails JSON parsing reaches the
same `.catch` handler as a network or server error — the placeholder is
removed, the same fixed apology turn is appended, the flag is cleared
and the send control re-enabled; the resulting state differs from the
network-error one only in the logged cause. -/
theorem claim_C10_badjson_failure_path (s : ClientState) (h : ThinkInv s) :
    settleResponse .okBadJson s =
      { settleResponse .netError s with
        consoleErrors := s.consoleErrors ++ [badJsonLog] }
    ∧ (settleResponse .okBadJson s).chatBox =
        (s.chatBox.filter fun n => !n.isThinking) ++ [botApologyNode s.nextId]
    ∧ countThinking (settleResponse .okBadJson s).chatBox = 0
    ∧ (settleResponse .okBadJson s).isProcessing = false
    ∧ (settleResponse .okBadJson s).sendBtnDisabled = false := by
  have hbad : settleResponse .okBadJson s = catchPath badJsonLog s := rfl
  have hnet : settleResponse .netError s = catchPath netErrorLog s := rfl
  rw [hbad, hnet, catchPath_eq badJsonLog s h, catchPath_eq netErrorLog s h]
  exact ⟨rfl, rfl, countThinking_filter_concat s.chatBox s.nextId, rfl, rfl⟩

/-- Witness for C10 at a concrete in-flight state. -/
theorem claim_C10_witness :
    settleResponse .okBadJson inFlightState =
      { settleResponse .netError inFlightState with
        consoleErrors := inFlightState.consoleErrors ++ [badJsonLog] }
    ∧ (settleResponse .okBadJson inFlightState).chatBox =
        (inFlightState.chatBox.filter fun n => !n.isThinking) ++
          [botApologyNode inFlightState.nextId]
    ∧ countThinking (settleResponse .okBadJson inFlightState).chatBox = 0
    ∧ (settleResponse .okBadJson inFlightState).isProcessing = false
    ∧ (settleResponse .okBadJson inFlightState).sendBtnDisabled = false :=
  claim_C10_badjson_failure_path inFlightState (by decide)

/-- Claim C5: plain rendering first neutralises the text (the escaped
intermediate holds no raw angle bracket for any input), then applies
the four substitutions — checked on the spec's markdown example and on
a markup-injection attempt, which stays escaped literal text. -/
theorem claim_C5_escape_then_format :
    (∀ text : String,
      '<' ∉ (escapeHtml text).data ∧ '>' ∉ (escapeHtml text).data)
    ∧ formatMessage "**bold** and *italic*\n- item" =
        "<strong>bold</strong> and <em>italic</em><br>• item"
    ∧ formatMessage "<script>alert(1)</script>" =
        "&lt;script&gt;alert(1)&lt;/script&gt;" :=
  ⟨fun text => escapeHtmlL_no_angle text.data, rfl, rfl⟩

/-- Claim C8: a medical payload whose `symptoms` is missing or not an
array makes the medical render operation throw instead of producing a
rendered turn. -/
theorem claim_C8_malformed_symptoms_error (d : ResponseData)
    (h : ∀ xs, d.symptoms ≠ JsVal.varr xs) :
    renderMedical d = .error .typeError
    ∧ ∀ s, addMedicalResponse d s = .error .typeError := by
  have hr : renderMedical d = .error .typeError := by
    cases hs : d.symptoms with
    | vstr s0 => simp [renderMedical, hs]
    | vnum n => simp [renderMedical, hs]
    | vbool b => simp [renderMedical, hs]
    | vnull => simp [renderMedical, hs]
    | vundefined => simp [renderMedical, hs]
    | varr xs => exact (h xs hs).elim
  refine ⟨hr, ?_⟩
  intro s
  unfold addMedicalResponse
  rw [hr]
  rfl

/-- Witness for C8 at the payload with `symptoms` missing. -/
theorem claim_C8_witness :
    renderMedical medMissingSymptoms = .error .typeError
    ∧ ∀ s, addMedicalResponse medMissingSymptoms s = .error .typeError :=
  claim_C8_malformed_symptoms_error medMissingSymptoms
    (fun _ hx => JsVal.noConfusion hx)

/-- Claim C9: the medical path inserts the server-supplied disease
string into the condition line as raw markup, unlike the plain branch,
which would render the same string as escaped literal text — the two
outputs differ on a markup-bearing value. -/
theorem claim_C9_medical_raw_markup :
    (renderMedical medMarkupDisease).map MedicalTurn.conditionHTML
      = .ok (conditionSectionHTML "<b>x</b>")
    ∧ '<' ∈ (conditionSectionHTML "<b>x</b>").data
    ∧ formatMessage "<b>x</b>" = "&lt;b&gt;x&lt;/b&gt;"
    ∧ conditionSectionHTML "<b>x</b>"
        ≠ conditionSectionHTML (formatMessage "<b>x</b>") :=
  ⟨rfl, by decide, rfl, by decide⟩

theorem settle_okJson_medical_ok (d : ResponseData) (s : ClientState)
    (t : MedicalTurn) (hm : isMedicalMode d.mode = true)
    (hr : renderMedical d = .ok t) :
    settleResponse (.okJson d) s =
      { hideThinkingIndicator s with
        chatBox := (hideThinkingIndicator s).chatBox ++
          [⟨(hideThinkingIndicator s).nextId, .medicalNode t⟩]
        nextId := (hideThinkingIndicator s).nextId + 1
        isProcessing := false
        sendBtnDisabled := false } := by
  unfold settleResponse
  simp only [hm, if_true]
  unfold addMedicalResponse
  rw [hr]
  rfl

/-- Claim C6: a successful response in medical mode renders one chip
per element of the symptoms array with underscores replaced by spaces,
the disease string inside the condition line, the fixed disclaimer, and
a footer stating the number of symptoms followed by "symptoms"; the
medical bubble ends up as the last chat-box child. -/
theorem claim_C6_medical_render_contents (names : List String)
    (disease : String) (r : JsVal) (s : ClientState) :
    ∃ t : MedicalTurn,
      renderMedical
        { mode := .vstr "medical", response := r,
          symptoms := .varr (names.map JsAtom.astr),
          disease := .vstr disease } = .ok t
      ∧ (settleResponse
          (Outcome.okJson
            { mode := .vstr "medical", response := r,
              symptoms := .varr (names.map JsAtom.astr),
              disease := .vstr disease }) s).chatBox.getLast?
        = some ⟨s.nextId, .medicalNode t⟩
      ∧ t.symptomsHTML = symptomsSectionHTML (String.join (names.map chipSpan))
      ∧ (names.map chipSpan).length = names.length
      ∧ (∃ l rr, t.conditionHTML = l ++ disease ++ rr)
      ∧ t.disclaimerHTML = disclaimerHTMLText
      ∧ (∃ l rr, t.footerHTML =
          l ++ (toString names.length ++ " symptoms") ++ rr) := by
  have hstep : renderMedical
      { mode := .vstr "medical", response := r,
        symptoms := .varr (names.map JsAtom.astr),
        disease := .vstr disease }
    = (renderChips (names.map JsAtom.astr)).bind (fun chips => Except.ok
        (MedicalTurn.mk (symptomsSectionHTML (String.join chips))
          (conditionSectionHTML disease) disclaimerHTMLText
          (footerSectionHTML (names.map JsAtom.astr).length)))
    := rfl
  have hrender : renderMedical
      { mode := .vstr "medical", response := r,
        symptoms := .varr (names.map JsAtom.astr),
        disease := .vstr disease } = .ok
    { symptomsHTML := symptomsSectionHTML (String.join (names.map chipSpan))
      conditionHTML := conditionSectionHTML disease
      disclaimerHTML := disclaimerHTMLText
      footerHTML := footerSectionHTML names.length } := by
    rw [hstep, renderChips_astr, List.length_map]
    rfl
  refine ⟨_, hrender, ?_, rfl, List.length_map names chipSpan, ?_, rfl, ?_⟩
  · rw [settle_okJson_medical_ok _ s _ (by rfl) hrender]
    simp only [List.getLast?_concat, hide_nextId]
  · refine ⟨"\n" ++ sp20 ++ "<strong>Possible condition:</strong> ",
      "\n" ++ sp16, ?_⟩
    simp [conditionSectionHTML, sp20, sp16, String.append_assoc]
  · refine ⟨"\n" ++ sp20 ++ "<span>AI-Powered Analysis</span>\n" ++
        sp20 ++ "<div class=\"response-source\">\n" ++
        sp24 ++ "<i class=\"fas fa-database\"></i> Medical Knowledge Base\n" ++
        sp20 ++ "</div>\n" ++
        sp20 ++ "<div class=\"chat-stats\">\n" ++
        sp24 ++ "<span class=\"stat-item\"><i class=\"fas fa-symptom\"></i> ",
      "</span>\n" ++ sp20 ++ "</div>\n" ++ sp16, ?_⟩
    simp [footerSectionHTML, sp20, sp24, sp16, String.append_assoc]

/-- Counterexample to C7: appending the first turn (a user bubble into
the empty chat box) leaves the suggestion bubbles in place, because the
removal fires only when the box holds more than one child; and even a
subsequently appended medical turn leaves them in place, because
`addMedicalResponse` contains no removal step. -/
theorem claim_C7_counterexample :
    (addMessage "hi" .user initState).chatBox.length = 1
    ∧ (addMessage "hi" .user initState).suggestionsPresent = true
    ∧ (addMedicalResponse medExample (addMessage "hi" .user initState)).map
        (fun s => (s.chatBox.length, s.suggestionsPresent)) = .ok (2, true) :=
  ⟨rfl, rfl, rfl⟩

/-- Claim C7 (amended): a turn appended through `addMessage` removes
the suggestion bubbles exactly when the chat box then holds more than
one child — in particular the first turn appended into an empty box
does not remove them — and turns appended through `addMedicalResponse`
never remove them. -/
theorem claim_C7_amended_suggestion_removal :
    (∀ (text : String) (ty : Sender) (s : ClientState),
      (addMessage text ty s).chatBox.length > 1 →
        (addMessage text ty s).suggestionsPresent = false)
    ∧ (∀ (text : String) (ty : Sender) (s : ClientState),
        s.chatBox = [] →
          (addMessage text ty s).suggestionsPresent = s.suggestionsPresent)
    ∧ (∀ (d : ResponseData) (s : ClientState),
        (addMedicalResponse d s).map ClientState.suggestionsPresent
          = (renderMedical d).map fun _ => s.suggestionsPresent) := by
  refine ⟨?_, ?_, ?_⟩
  · intro text ty s hlen
    simp only [addMessage] at hlen ⊢
    rw [decide_eq_true hlen]
    cases s.suggestionsPresent <;> simp
  · intro text ty s hbox
    simp [addMessage, hbox]
  · intro d s
    unfold addMedicalResponse
    cases hr : renderMedical d with
    | ok t => rfl
    | error e => rfl

/-- Witness for the amended C7 at concrete states. -/
theorem claim_C7_amended_witness :
    (addMessage "ok" .bot (addMessage "hi" .user initState)).suggestionsPresent
      = false
    ∧ (addMessage "hi" .user initState).suggestionsPresent
      = initState.suggestionsPresent
    ∧ (addMedicalResponse medExample initState).map
        ClientState.suggestionsPresent
      = (renderMedical medExample).map fun _ => initState.suggestionsPresent :=
  ⟨claim_C7_amended_suggestion_removal.1 "ok" .bot
      (addMessage "hi" .user initState) (by decide),
    claim_C7_amended_suggestion_removal.2.1 "hi" .user initState rfl,
    claim_C7_amended_suggestion_removal.2.2 medExample initState⟩

/-- Witness for C5 at the two concrete example inputs. -/
theorem claim_C5_witness :
    '<' ∉ (escapeHtml "<script>alert(1)</script>").data
    ∧ '>' ∉ (escapeHtml "<script>alert(1)</script>").data
    ∧ formatMessage "**bold** and *italic*\n- item" =
        "<strong>bold</strong> and <em>italic</em><br>• item" :=
  ⟨(claim_C5_escape_then_format.1 "<script>alert(1)</script>").1,
    (claim_C5_escape_then_format.1 "<script>alert(1)</script>").2,
    claim_C5_escape_then_format.2.1⟩

/-- Witness for C6 at the spec's example payload (symptoms
`chest_pain`, `fever`; disease `Flu`). -/
theorem claim_C6_witness :
    ∃ t : MedicalTurn,
      renderMedical
        { mode := .vstr "medical", response := .vnull,
          symptoms := .varr (["chest_pain", "fever"].map JsAtom.astr),
          disease := .vstr "Flu" } = .ok t
      ∧ (settleResponse
          (Outcome.okJson
            { mode := .vstr "medical", response := .vnull,
              symptoms := .varr (["chest_pain", "fever"].map JsAtom.astr),
              disease := .vstr "Flu" }) inFlightState).chatBox.getLast?
        = some ⟨inFlightState.nextId, .medicalNode t⟩
      ∧ t.symptomsHTML = symptomsSectionHTML
          (String.join (["chest_pain", "fever"].map chipSpan))
      ∧ (["chest_pain", "fever"].map chipSpan).length
          = ["chest_pain", "fever"].length
      ∧ (∃ l rr, t.conditionHTML = l ++ "Flu" ++ rr)
      ∧ t.disclaimerHTML = disclaimerHTMLText
      ∧ (∃ l rr, t.footerHTML =
          l ++ (toString (["chest_pain", "fever"].length) ++ " symptoms")
            ++ rr) :=
  claim_C6_medical_render_contents ["chest_pain", "fever"] "Flu" .vnull
    inFlightState

/-- Witness for C9 restating its key conjuncts. -/
theorem claim_C9_witness :
    (renderMedical medMarkupDisease).map MedicalTurn.conditionHTML
      = .ok (conditionSectionHTML "<b>x</b>")
    ∧ conditionSectionHTML "<b>x</b>"
        ≠ conditionSectionHTML (formatMessage "<b>x</b>") :=
  ⟨claim_C9_medical_raw_markup.1, claim_C9_medical_raw_markup.2.2.2⟩
